import Mathlib

/-!
Verification of the ParlayX USSD transport (vumi.transports.parlayx_ussd).

This file shallowly embeds the transport's message-handling code:

* `parlayx.py` — `ParlayXUSSDTransport.determine_session_event`,
  `handle_outbound_message`, `handle_outbound_message_failure`,
  `handle_raw_inbound_message`;
* `server.py` — `USSDMessage.from_element`, `USSDNotificationService.render_POST`,
  `process`, `process_unknown`, `process_notifyUssdReception`;
* `client.py` — `ParlayXUSSDClient._make_header`.

Collaborator modules that the transport imports from `vumi.transports.parlayx`
(`soaputil`, `xmlutil`, `client` helpers) and `vumi.components.session` are not
part of this package; they are modelled from the specification where a claim
depends on them, and each such definition is marked `Modelled from the spec:`.
-/

namespace ParlayXUSSD

/-- `s.endswith(p)`: computable character-list version of string suffix
testing, so concrete instances evaluate inside the kernel. -/
def strEndsWith (s p : String) : Bool := p.data.isSuffixOf s.data

/-- `s.startswith(p)`: computable character-list version of string prefix
testing. -/
def strStartsWith (s p : String) : Bool := p.data.isPrefixOf s.data

/-- `s[n:]`: computable character-list version of dropping a prefix. -/
def strDrop (s : String) (n : Nat) : String := String.mk (s.data.drop n)

/-- Session event kinds (`TransportUserMessage.SESSION_NEW` / `SESSION_RESUME` /
`SESSION_CLOSE`). -/
inductive SessionEvent where
  | sessionNew
  | sessionResume
  | sessionClose
deriving DecidableEq, Repr

/-- Embeds `ParlayXUSSDTransport.determine_session_event` (parlayx.py:120-126):
`'0'` maps to NEW, `'1'` to RESUME, anything else to CLOSE. -/
def determine_session_event (msg_type : String) : SessionEvent :=
  if msg_type = "0" then SessionEvent.sessionNew
  else if msg_type = "1" then SessionEvent.sessionResume
  else SessionEvent.sessionClose

/-- A failure reaching `handle_outbound_message_failure`. `ServiceException` and
`PolicyException` are `SoapFault` subclasses (parlayx client; the transport's
docstring and tests rely on this), so `f.check(SoapFault)` holds for the first
three constructors. `otherFailure` covers non-protocol failures (network
errors, arbitrary exceptions). -/
inductive RemoteFailure where
  | serviceException (code message : String)
  | policyException (code message : String)
  | soapFault (code message : String)
  | otherFailure (message : String)
deriving DecidableEq, Repr

/-- `f.check(ServiceException, PolicyException)`. -/
def RemoteFailure.checkServicePolicy : RemoteFailure → Bool
  | .serviceException _ _ => true
  | .policyException _ _ => true
  | _ => false

/-- `f.check(SoapFault)`: all structured SOAP faults, including the
`ServiceException`/`PolicyException` subclasses. -/
def RemoteFailure.checkSoapFault : RemoteFailure → Bool
  | .otherFailure _ => false
  | _ => true

/-- `f.value.code` for SOAP faults; non-protocol failures carry no fault code
(the handler never inspects it for them). -/
def RemoteFailure.code : RemoteFailure → String
  | .serviceException c _ => c
  | .policyException c _ => c
  | .soapFault c _ => c
  | .otherFailure _ => ""

/-- `f.getErrorMessage()`. -/
def RemoteFailure.getErrorMessage : RemoteFailure → String
  | .serviceException _ m => m
  | .policyException _ m => m
  | .soapFault _ m => m
  | .otherFailure m => m

/-- Acknowledgement events published on the internal bus
(`publish_ack` / `publish_nack`). -/
inductive Event where
  | ack (user_message_id request_id : String)
  | nack (user_message_id reason : String)
deriving DecidableEq, Repr

/-- Outcome of `handle_outbound_message_failure`: `TemporaryFailure` raised,
`PermanentFailure` raised, or the original failure passed through
(`returnValue(f)`). -/
inductive FailureDisposition where
  | temporary
  | permanent
  | passedThrough (f : RemoteFailure)
deriving DecidableEq, Repr

/-- Embeds `ParlayXUSSDTransport.handle_outbound_message_failure`
(parlayx.py:157-182). Returns the events published during handling together
with the disposition. The source raises `TemporaryFailure` for unknown
server-class SOAP faults *before* the `publish_nack` call; all other paths
publish a nack and then either raise `PermanentFailure` (SOAP faults) or pass
the failure through. -/
def handle_outbound_message_failure (f : RemoteFailure) (message_id : String) :
    List Event × FailureDisposition :=
  if ¬ f.checkServicePolicy ∧ f.checkSoapFault ∧ strEndsWith f.code "Server" then
    ([], FailureDisposition.temporary)
  else
    ([Event.nack message_id f.getErrorMessage],
     if f.checkSoapFault then FailureDisposition.permanent
     else FailureDisposition.passedThrough f)

/-- Embeds the deferred chain of `ParlayXUSSDTransport.handle_outbound_message`
(parlayx.py:128-155): `send_ussd` result, with
`d.addErrback(handle_outbound_message_failure, message)` followed by
`d.addCallback(lambda requestIdentifier: publish_ack(...))`. On success the
errback is skipped and exactly one ack is published; on failure the errback
runs and its result is again a failure on every branch, so the ack callback
never fires. -/
def handle_outbound_message (message_id : String)
    (send_result : Except RemoteFailure String) :
    List Event × Except FailureDisposition String :=
  match send_result with
  | Except.ok request_id =>
      ([Event.ack message_id request_id], Except.ok request_id)
  | Except.error f =>
      let r := handle_outbound_message_failure f message_id
      (r.1, Except.error r.2)

/-! ### XML document model

The transport's XML layer (`vumi.transports.parlayx.xmlutil`) is ElementTree
based; elements carry namespace-qualified tags and are matched by local name
after namespace resolution. We model a tag as a (namespace, local name) pair
and a document as a tree of elements and text nodes. -/

/-- A namespace-qualified element name: `split_qualified` of an ElementTree
Clark-notation tag yields the (namespace, local name) pair. -/
structure QName where
  ns : String
  localname : String
deriving DecidableEq, Repr

/-- An XML tree: elements with qualified tags and children, and text nodes. -/
inductive Xml where
  | element (tag : QName) (children : List Xml)
  | text (s : String)

/-- Whether a node is an element (ElementTree `getchildren()` yields only
element nodes). -/
def Xml.isElement : Xml → Bool
  | .element _ _ => true
  | .text _ => false

/-- Element children of a node, as `getchildren()` returns them. -/
def Xml.getchildren : Xml → List Xml
  | .element _ cs => cs.filter Xml.isElement
  | .text _ => []

/-- Local name of a node's tag (empty for text nodes). -/
def Xml.localnameOf : Xml → String
  | .element t _ => t.localname
  | .text _ => ""

/-- The SOAP 1.1 envelope namespace used by `soaputil` (`SOAP_ENV`). -/
def soapEnvNs : String := "http://schemas.xmlsoap.org/soap/envelope/"

def envelopeTag : QName := ⟨soapEnvNs, "Envelope"⟩

def headerTag : QName := ⟨soapEnvNs, "Header"⟩

def bodyTag : QName := ⟨soapEnvNs, "Body"⟩

def faultTag : QName := ⟨soapEnvNs, "Fault"⟩

/-- The ParlayX USSD notification namespace (`NOTIFICATION_NS`, server.py:20). -/
def notificationNs : String :=
  "http://www.csapi.org/schema/parlayx/ussd/notification/v1_0/local"

/-- `root.find(tag)`: first element child with the given qualified tag. -/
def findChild (tag : QName) : List Xml → Option Xml
  | [] => none
  | Xml.element t cs :: rest =>
      if t = tag then some (Xml.element t cs) else findChild tag rest
  | Xml.text _ :: rest => findChild tag rest

/-- The single child of an element, when it has exactly one. -/
def singleChild : Xml → Option Xml
  | Xml.element _ [c] => some c
  | _ => none

/-! ### Envelope codec

`soaputil` is imported from `vumi.transports.parlayx` and is not part of this
package; the codec is modelled from the specification's contract for it. -/

/-- Modelled from the spec: `soap_envelope`/`wrap(body, header=None)` from the
missing `soaputil` module builds an envelope document wrapping the body (inside
a Body element) and, when supplied, the header (inside a Header element); an
absent header contributes no Header element. -/
def soap_envelope (body : Xml) (header : Option Xml) : Xml :=
  Xml.element envelopeTag
    ((match header with
      | none => []
      | some h => [Xml.element headerTag [h]]) ++
     [Xml.element bodyTag [body]])

/-- Errors arising while processing an inbound POST: an XML parse error
(`ParseError`, not a SOAP fault), a `SoapFault` carrying a fault code and
message, or a failure escaping the message-received callback. -/
inductive ProcessingError where
  | parseError (message : String)
  | soapFault (code message : String)
  | handlerFailure (message : String)
deriving DecidableEq, Repr

/-- `f.getErrorMessage()` for processing failures. -/
def ProcessingError.getErrorMessage : ProcessingError → String
  | .parseError m => m
  | .soapFault _ m => m
  | .handlerFailure m => m

/-- Modelled from the spec: `unwrap_soap_envelope(document)` from the missing
`soaputil` module locates the envelope's Body element (failing with a
client-class `Malformed SOAP request` fault when no recognizable body element
is present) and the optional Header element, returning both. -/
def unwrap_soap_envelope (doc : Xml) :
    Except ProcessingError (Xml × Option Xml) :=
  match doc with
  | Xml.text _ =>
      Except.error (ProcessingError.soapFault "soapenv:Client"
        "Malformed SOAP request")
  | Xml.element _ children =>
      match findChild bodyTag children with
      | none =>
          Except.error (ProcessingError.soapFault "soapenv:Client"
            "Malformed SOAP request")
      | some bodyElem => Except.ok (bodyElem, findChild headerTag children)

/-- Modelled from the spec: the codec contract `unwrap(document) -> (body,
header)` — the operation body originally wrapped, and the supplied header (or
none). Refines `unwrap_soap_envelope` by projecting the content out of the
Body and Header elements. -/
def unwrap (doc : Xml) : Except ProcessingError (Xml × Option Xml) :=
  match unwrap_soap_envelope doc with
  | Except.error e => Except.error e
  | Except.ok (bodyElem, headerElem) =>
      match singleChild bodyElem with
      | none =>
          Except.error (ProcessingError.soapFault "soapenv:Client"
            "Malformed SOAP request")
      | some b => Except.ok (b, headerElem.bind singleChild)

/-- Modelled from the spec: `soap_fault(code, message)` from the missing
`soaputil` module builds a fault document always carrying `faultcode` and
`faultstring` (also the serialization a `SoapFault.to_element()` produces). -/
def soap_fault (faultcode faultstring : String) : Xml :=
  Xml.element faultTag
    [Xml.element ⟨"", "faultcode"⟩ [Xml.text faultcode],
     Xml.element ⟨"", "faultstring"⟩ [Xml.text faultstring]]

/-! ### Inbound notification data -/

/-- Modelled from the spec: `normalize_address` from the missing
`vumi.transports.parlayx.server` module normalizes a subscriber address to the
canonical addressing form — any `tel:` scheme prefix is dropped and a `+` is
prepended (the package's server tests exercise exactly this mapping). -/
def normalize_address (address : String) : String :=
  "+" ++ (if strStartsWith address "tel:" then strDrop address 4 else address)

/-- The ParlayX `USSDMessage` complex type (server.py:25-45), immutable once
parsed. -/
structure USSDMessage where
  msgType : String
  senderCB : String
  receiveCB : String
  ussdOpType : String
  msisdn : String
  serviceCode : String
  codeScheme : String
  ussdString : String
deriving DecidableEq, Repr

/-- Embeds `USSDMessage.from_element` (server.py:31-45) at the level of the
extracted field texts: every field is taken verbatim except `msIsdn`, which is
parsed with `normalize_address`. -/
def USSDMessage.from_element (msgType senderCB receiveCB ussdOpType msIsdn
    serviceCode codeScheme ussdString : String) : USSDMessage :=
  { msgType := msgType
    senderCB := senderCB
    receiveCB := receiveCB
    ussdOpType := ussdOpType
    msisdn := normalize_address msIsdn
    serviceCode := serviceCode
    codeScheme := codeScheme
    ussdString := ussdString }

/-! ### Session store

`vumi.components.session.SessionManager` is not part of this package; it is
modelled from the specification as a key-value store of per-session records. -/

/-- A session record: named fields of a stored session. -/
abbrev SessionRecord := List (String × String)

/-- The session store: session id to stored record. -/
abbrev SessionStore := List (String × SessionRecord)

/-- Field lookup in a session record (`session['ussd_code']` succeeds exactly
when the field is present). -/
def getField (record : SessionRecord) (k : String) : Option String :=
  (record.find? (fun p => p.1 = k)).map Prod.snd

/-- Modelled from the spec: `SessionManager.create_session(session_id,
ussd_code=...)` creates a session record keyed by the session id, storing the
given carrier-side service address. -/
def create_session (store : SessionStore) (session_id ussd_code : String) :
    SessionStore :=
  (session_id, [("ussd_code", ussd_code)]) :: store

/-- Modelled from the spec: `SessionManager.load_session(session_id)` returns
the stored record for the session id, or an empty record when the id is
absent (the handler never fabricates a session on resume). -/
def load_session (store : SessionStore) (session_id : String) : SessionRecord :=
  ((store.find? (fun p => p.1 = session_id)).map Prod.snd).getD []

/-- The inbound message event published by `publish_message`
(parlayx.py:227-234), restricted to the fields the handler computes. -/
structure InboundEvent where
  content : Option String
  to_addr : String
  from_addr : String
  session_event : SessionEvent
deriving DecidableEq, Repr

/-- A failure escaping `handle_raw_inbound_message`: the `KeyError` raised by
`session['ussd_code']` when the session record is absent or lacks the field. -/
inductive HandlerError where
  | sessionNotFound (session_id : String)
deriving DecidableEq, Repr

/-- Embeds `ParlayXUSSDTransport.handle_raw_inbound_message`
(parlayx.py:184-234). On a NEW session event the content is set to `None`, the
`to_addr` is the notification's `serviceCode` and a session record is created;
otherwise the session is loaded and its `ussd_code` field supplies `to_addr`
(failing when absent), with the carrier text as content. On success exactly one
inbound event is published. -/
def handle_raw_inbound_message (store : SessionStore) (session_id : String)
    (inbound_message : USSDMessage) :
    Except HandlerError (SessionStore × InboundEvent) :=
  let session_event := determine_session_event inbound_message.msgType
  if session_event = SessionEvent.sessionNew then
    let to_addr := inbound_message.serviceCode
    Except.ok (create_session store session_id to_addr,
      { content := none
        to_addr := to_addr
        from_addr := inbound_message.msisdn
        session_event := session_event })
  else
    match getField (load_session store session_id) "ussd_code" with
    | none => Except.error (HandlerError.sessionNotFound session_id)
    | some to_addr =>
        Except.ok (store,
          { content := some inbound_message.ussdString
            to_addr := to_addr
            from_addr := inbound_message.msisdn
            session_event := session_event })

/-! ### Inbound HTTP endpoint (`USSDNotificationService`) -/

/-- The raw content of an inbound POST: either bytes that do not parse as XML,
or a parsed document. -/
inductive RequestContent where
  | invalidXml (raw : String)
  | xmlDoc (doc : Xml)

/-- Modelled from the spec: `parse_document` from the missing `xmlutil` module
parses well-formed XML and raises `ParseError` (not a SOAP fault) on malformed
input. -/
def parse_document : RequestContent → Except ProcessingError Xml
  | RequestContent.invalidXml raw => Except.error (ProcessingError.parseError raw)
  | RequestContent.xmlDoc doc => Except.ok doc

/-- Embeds `USSDNotificationService.process_unknown` (server.py:109-113):
raises a server-class fault naming the unknown operation. -/
def process_unknown (name : String) : Except ProcessingError Xml :=
  Except.error (ProcessingError.soapFault "soapenv:Server"
    ("No handler for " ++ name))

/-- The fixed success response body
`NOTIFICATION_NS.notifyUssdReceptionResponse(NOTIFICATION_NS.result('0'))`
(server.py:129). -/
def notifyUssdReceptionResponse : Xml :=
  Xml.element ⟨notificationNs, "notifyUssdReceptionResponse"⟩
    [Xml.element ⟨notificationNs, "result"⟩ [Xml.text "0"]]

/-- Embeds `USSDNotificationService.process_notifyUssdReception`
(server.py:115-130) relative to the outcome of the message-received callback:
the success response is produced by a callback chained *after* the deferred
returned by `maybeDeferred(self.callback_message_received, ...)`, so a callback
failure propagates and the response is only built once the callback chain has
succeeded. -/
def process_notifyUssdReception
    (callback_result : Except ProcessingError Unit) :
    Except ProcessingError Xml :=
  match callback_result with
  | Except.error e => Except.error e
  | Except.ok _ => Except.ok notifyUssdReceptionResponse

/-- Embeds `USSDNotificationService.process` (server.py:95-107): dispatch is on
the local name of the first element child of the Body element — returning from
inside the loop — with `process_notifyUssdReception` the only registered
operation handler and `process_unknown` the `getattr` default; a body with no
element children raises a client-class `No actionable items` fault. -/
def process (bodyElem : Xml)
    (callback_result : Except ProcessingError Unit) :
    Except ProcessingError Xml :=
  match bodyElem.getchildren with
  | [] =>
      Except.error (ProcessingError.soapFault "soapenv:Client"
        "No actionable items")
  | child :: _ =>
      if child.localnameOf = "notifyUssdReception" then
        process_notifyUssdReception callback_result
      else
        process_unknown child.localnameOf

/-- Embeds `_handleError` inside `render_POST` (server.py:73-80): the response
code is set to `INTERNAL_SERVER_ERROR` (500) for every failure; a `SoapFault`
is serialized via its own `to_element`, any other failure becomes a fault with
the fixed code `soapenv:Server` and the failure's message. -/
def handleError : ProcessingError → Nat × Xml
  | ProcessingError.soapFault c m => (500, soap_fault c m)
  | e => (500, soap_fault "soapenv:Server" e.getErrorMessage)

/-- The HTTP response written back to the carrier: status code and the body
written by `_writeResponse` (always `soap_envelope(response)`). -/
structure RenderResult where
  status : Nat
  body : Xml

/-- Embeds `USSDNotificationService.render_POST` (server.py:60-93): parse the
request content and unwrap the envelope (any exception there becomes a failed
deferred before `process` is ever invoked); otherwise dispatch via `process`,
with `_handleSuccess` setting 200; `_handleError` converts any failure into a
500 fault response; `_writeResponse` wraps the outcome in an envelope. -/
def render_POST (content : RequestContent)
    (callback_result : Except ProcessingError Unit) : RenderResult :=
  let result : Except ProcessingError Xml :=
    match parse_document content with
    | Except.error e => Except.error e
    | Except.ok tree =>
        match unwrap_soap_envelope tree with
        | Except.error e => Except.error e
        | Except.ok (bodyElem, _header) => process bodyElem callback_result
  match result with
  | Except.ok response => ⟨200, soap_envelope response none⟩
  | Except.error e =>
      let p := handleError e
      ⟨p.1, soap_envelope p.2 none⟩

/-- The `ProcessingError` a `HandlerError` escaping the transport callback
presents to `_handleError` (a `KeyError` is not a `SoapFault`). -/
def HandlerError.toProcessingError : HandlerError → ProcessingError
  | HandlerError.sessionNotFound _ => ProcessingError.handlerFailure "ussd_code"

/-- A `notifyUssdReception` operation element as the carrier posts it
(tests/utils.py `create_ussd_reception_element`): the USSDMessage fields as
children in the notification namespace. -/
def ussd_reception_element (msgType senderCB ussdOpType ussdString msIsdn
    serviceCode : String) : Xml :=
  Xml.element ⟨notificationNs, "notifyUssdReception"⟩
    [Xml.element ⟨notificationNs, "msgType"⟩ [Xml.text msgType],
     Xml.element ⟨notificationNs, "senderCB"⟩ [Xml.text senderCB],
     Xml.element ⟨notificationNs, "receiveCB"⟩ [Xml.text senderCB],
     Xml.element ⟨notificationNs, "ussdOpType"⟩ [Xml.text ussdOpType],
     Xml.element ⟨notificationNs, "msIsdn"⟩ [Xml.text msIsdn],
     Xml.element ⟨notificationNs, "serviceCode"⟩ [Xml.text serviceCode],
     Xml.element ⟨notificationNs, "ussdString"⟩ [Xml.text ussdString]]

/-- The end-to-end handling of a `notifyUssdReception` notification POST:
`handle_raw_inbound_message` is the `callback_message_received` wired into the
service (parlayx.py:104); its failure or success is the callback outcome the
`render_POST` deferred chain observes. Returns the resulting session store,
the published inbound events, and the HTTP response produced by `render_POST`
on the posted envelope. -/
def handle_notification_request (store : SessionStore) (session_id : String)
    (m : USSDMessage) : SessionStore × List InboundEvent × RenderResult :=
  let doc := soap_envelope
    (ussd_reception_element m.msgType m.senderCB m.ussdOpType m.ussdString
      m.msisdn m.serviceCode) none
  match handle_raw_inbound_message store session_id m with
  | Except.error e =>
      (store, [],
       render_POST (RequestContent.xmlDoc doc)
         (Except.error e.toProcessingError))
  | Except.ok (store2, ev) =>
      (store2, [ev],
       render_POST (RequestContent.xmlDoc doc) (Except.ok ()))

/-! ### Authentication header builder (`ParlayXUSSDClient._make_header`)

`format_timestamp`, `make_password` and `PARLAYX_HEAD_NS` come from the
missing `vumi.transports.parlayx.client` module and are modelled from the
specification. -/

/-- A date-time instant as handed to `format_timestamp` (`datetime.now()`). -/
structure DateTime where
  year : Nat
  month : Nat
  day : Nat
  hour : Nat
  minute : Nat
  second : Nat
deriving DecidableEq, Repr

/-- Two zero-padded decimal digits of `n % 100`. -/
def digits2 (n : Nat) : String :=
  String.mk [Char.ofNat (48 + n / 10 % 10), Char.ofNat (48 + n % 10)]

/-- Four zero-padded decimal digits of `n % 10000`. -/
def digits4 (n : Nat) : String :=
  digits2 (n / 100) ++ digits2 n

/-- Modelled from the spec: `format_timestamp` from the missing parlayx client
module renders the instant as the carrier-specified fixed-width numeric
date-time string with no separators (`%Y%m%d%H%M%S`). -/
def format_timestamp (t : DateTime) : String :=
  digits4 t.year ++ digits2 t.month ++ digits2 t.day ++
    digits2 t.hour ++ digits2 t.minute ++ digits2 t.second

/-- A concrete stand-in for the fixed one-way hash used by `make_password`,
rendered as a decimal string. -/
def hashHex (s : String) : String :=
  toString (s.data.foldl (fun a c => (a * 31 + c.toNat) % 1000000007) 7)

/-- Modelled from the spec: `make_password` from the missing parlayx client
module computes the hashed credential over the concatenation of provider id,
password and the formatted timestamp with a fixed one-way hash. -/
def make_password (provider_id password timestamp : String) : String :=
  hashHex (provider_id ++ password ++ timestamp)

/-- Embeds `ParlayXUSSDClient._make_header` (client.py:63-87) as the ordered
list of `RequestSOAPHeader` fields it emits: `spId`, `spPassword` (recomputed
from this call's timestamp), `serviceId` and `timeStamp`, followed by `OA`
only when a subscription address is supplied and `linkid` only when a link id
is supplied; `self._now()` is the per-call current time, taken here as the
`now` argument. -/
def _make_header (service_provider_id service_provider_password
    service_provider_service_id : String) (now : DateTime)
    (service_subscription_address linkid : Option String) :
    List (String × String) :=
  let timestamp := format_timestamp now
  let other :=
    (match service_subscription_address with
     | some a => [("OA", a)]
     | none => []) ++
    (match linkid with
     | some l => [("linkid", l)]
     | none => [])
  [("spId", service_provider_id),
   ("spPassword",
    make_password service_provider_id service_provider_password timestamp),
   ("serviceId", service_provider_service_id),
   ("timeStamp", timestamp)] ++ other

/-! ## Theorems -/

/-- Claim C10: `determine_session_event` is total over all `msgType` strings,
mapping `'0'` to the NEW session event, `'1'` to RESUME, and every other value
to CLOSE; no value is rejected. -/
theorem claim_C10_determine_session_event_total :
    determine_session_event "0" = SessionEvent.sessionNew ∧
    determine_session_event "1" = SessionEvent.sessionResume ∧
    ∀ s : String, s ≠ "0" → s ≠ "1" →
      determine_session_event s = SessionEvent.sessionClose := by
  refine ⟨rfl, rfl, ?_⟩
  intro s h0 h1
  simp [determine_session_event, h0, h1]

/-- Witness for C10 at the documented close discriminator and at an arbitrary
undocumented value. -/
theorem claim_C10_witness :
    determine_session_event "2" = SessionEvent.sessionClose ∧
    determine_session_event "banana" = SessionEvent.sessionClose :=
  ⟨claim_C10_determine_session_event_total.2.2 "2" (by decide) (by decide),
   claim_C10_determine_session_event_total.2.2 "banana" (by decide) (by decide)⟩

/-- Claim C1: the outbound failure classifier maps a `ServiceException` or
`PolicyException` to a Permanent failure; any other SOAP fault whose code ends
in `Server` to a Temporary failure; any other SOAP fault to a Permanent
failure; and a non-protocol failure is passed through unclassified. -/
theorem claim_C1_fault_classifier (code message message_id : String) :
    ((handle_outbound_message_failure
        (RemoteFailure.serviceException code message) message_id).2 =
      FailureDisposition.permanent) ∧
    ((handle_outbound_message_failure
        (RemoteFailure.policyException code message) message_id).2 =
      FailureDisposition.permanent) ∧
    (strEndsWith code "Server" = true →
      (handle_outbound_message_failure
          (RemoteFailure.soapFault code message) message_id).2 =
        FailureDisposition.temporary) ∧
    (strEndsWith code "Server" = false →
      (handle_outbound_message_failure
          (RemoteFailure.soapFault code message) message_id).2 =
        FailureDisposition.permanent) ∧
    ((handle_outbound_message_failure
        (RemoteFailure.otherFailure message) message_id).2 =
      FailureDisposition.passedThrough (RemoteFailure.otherFailure message)) := by
  refine ⟨?_, ?_, ?_, ?_, ?_⟩
  · simp [handle_outbound_message_failure, RemoteFailure.checkServicePolicy,
      RemoteFailure.checkSoapFault]
  · simp [handle_outbound_message_failure, RemoteFailure.checkServicePolicy,
      RemoteFailure.checkSoapFault]
  · intro h
    simp [handle_outbound_message_failure, RemoteFailure.checkServicePolicy,
      RemoteFailure.checkSoapFault, RemoteFailure.code, h]
  · intro h
    simp [handle_outbound_message_failure, RemoteFailure.checkServicePolicy,
      RemoteFailure.checkSoapFault, RemoteFailure.code, h]
  · simp [handle_outbound_message_failure, RemoteFailure.checkServicePolicy,
      RemoteFailure.checkSoapFault, RemoteFailure.code]

/-- Witness for C1: the spec's fault classification table at concrete fault
codes. -/
theorem claim_C1_witness :
    strEndsWith "soapenv:Server" "Server" = true ∧
    strEndsWith "soapenv:Client" "Server" = false ∧
    (handle_outbound_message_failure
        (RemoteFailure.soapFault "soapenv:Server" "m") "x").2 =
      FailureDisposition.temporary ∧
    (handle_outbound_message_failure
        (RemoteFailure.soapFault "soapenv:Client" "m") "x").2 =
      FailureDisposition.permanent :=
  ⟨by decide, by decide,
   (claim_C1_fault_classifier "soapenv:Server" "m" "x").2.2.1 (by decide),
   (claim_C1_fault_classifier "soapenv:Client" "m" "x").2.2.2.1 (by decide)⟩

/-- Counterexample to claim C2 as stated: for an unknown server-class SOAP
fault, the handler raises the Temporary classification *before* publishing any
negative acknowledgement, so the outbound message gets zero acknowledgement
events, not exactly one. -/
theorem claim_C2_counterexample :
    handle_outbound_message "m1"
      (Except.error (RemoteFailure.soapFault "soapenv:Server" "boom")) =
      ([], Except.error FailureDisposition.temporary) := by
  rfl

/-- Claim C2 as amended: a successful send publishes exactly one ack; a
failure classified Temporary (unknown server-class SOAP fault) is raised
before the nack, so that message gets no acknowledgement event; every other
failure (Permanent or passed through) publishes exactly one nack before the
classified failure is raised or returned. -/
theorem claim_C2_acknowledgements (message_id request_id : String)
    (f : RemoteFailure) :
    ((handle_outbound_message message_id (Except.ok request_id)).1 =
      [Event.ack message_id request_id]) ∧
    ((handle_outbound_message message_id (Except.error f)).2 =
        Except.error FailureDisposition.temporary →
      (handle_outbound_message message_id (Except.error f)).1 = []) ∧
    (∀ d : FailureDisposition,
      (handle_outbound_message message_id (Except.error f)).2 =
          Except.error d →
      d ≠ FailureDisposition.temporary →
      (handle_outbound_message message_id (Except.error f)).1 =
        [Event.nack message_id f.getErrorMessage]) := by
  refine ⟨rfl, ?_, ?_⟩
  · intro h
    simp only [handle_outbound_message] at h ⊢
    unfold handle_outbound_message_failure at h ⊢
    cases hsp : f.checkServicePolicy <;> cases hsf : f.checkSoapFault <;>
      cases hse : strEndsWith f.code "Server" <;> simp_all
  · intro d hd hne
    simp only [handle_outbound_message] at hd ⊢
    unfold handle_outbound_message_failure at hd ⊢
    cases hsp : f.checkServicePolicy <;> cases hsf : f.checkSoapFault <;>
      cases hse : strEndsWith f.code "Server" <;> simp_all

/-- Witness for C2 (amended): a passed-through failure yields exactly one nack
carrying its message. -/
theorem claim_C2_witness :
    (handle_outbound_message "m1"
      (Except.error (RemoteFailure.otherFailure "failed"))).1 =
      [Event.nack "m1" "failed"] :=
  (claim_C2_acknowledgements "m1" "r1" (RemoteFailure.otherFailure "failed")).2.2
    (FailureDisposition.passedThrough (RemoteFailure.otherFailure "failed"))
    (by rfl) (by decide)

/-- Counterexample to claim C3 as stated: a RESUME notification for an id with
no session record is indeed rejected with no event and no session write, but
the rejection is an HTTP 500 response carrying the server-class fault code
`soapenv:Server` — not an HTTP 400-equivalent client-class condition. -/
theorem claim_C3_counterexample :
    (handle_notification_request [] "session1"
        (USSDMessage.from_element "1" "123456" "123456" "1" "27117654321"
          "909" "68" "hello")).1 = [] ∧
    (handle_notification_request [] "session1"
        (USSDMessage.from_element "1" "123456" "123456" "1" "27117654321"
          "909" "68" "hello")).2.1 = [] ∧
    (handle_notification_request [] "session1"
        (USSDMessage.from_element "1" "123456" "123456" "1" "27117654321"
          "909" "68" "hello")).2.2.status = 500 ∧
    ((handle_notification_request [] "session1"
        (USSDMessage.from_element "1" "123456" "123456" "1" "27117654321"
          "909" "68" "hello")).2.2.status == 400) = false ∧
    (handle_notification_request [] "session1"
        (USSDMessage.from_element "1" "123456" "123456" "1" "27117654321"
          "909" "68" "hello")).2.2.body =
      soap_envelope (soap_fault "soapenv:Server" "ussd_code") none ∧
    strEndsWith "soapenv:Server" "Client" = false := by
  exact ⟨rfl, rfl, rfl, rfl, rfl, by decide⟩

/-- Claim C3 as amended: a non-NEW notification whose session id has no
stored `ussd_code` fails with the session-not-found condition, emits no
inbound event, writes no session record, and is surfaced to the carrier as an
HTTP 500 response whose fault code is the server-class `soapenv:Server` (not a
400-equivalent client-class rejection). -/
theorem claim_C3_session_not_found (store : SessionStore) (session_id : String)
    (m : USSDMessage)
    (hnew : determine_session_event m.msgType ≠ SessionEvent.sessionNew)
    (habs : getField (load_session store session_id) "ussd_code" = none) :
    handle_raw_inbound_message store session_id m =
      Except.error (HandlerError.sessionNotFound session_id) ∧
    handle_notification_request store session_id m =
      (store, [],
       ⟨500, soap_envelope (soap_fault "soapenv:Server" "ussd_code") none⟩) := by
  have h1 : handle_raw_inbound_message store session_id m =
      Except.error (HandlerError.sessionNotFound session_id) := by
    simp [handle_raw_inbound_message, hnew, habs]
  refine ⟨h1, ?_⟩
  simp only [handle_notification_request, h1]
  rfl

/-- Witness for C3 (amended) at a concrete RESUME notification against an
empty store. -/
theorem claim_C3_witness :
    handle_notification_request [] "session1"
        (USSDMessage.from_element "1" "123456" "123456" "1" "27117654321"
          "909" "68" "hello") =
      ([], [],
       ⟨500, soap_envelope (soap_fault "soapenv:Server" "ussd_code") none⟩) :=
  (claim_C3_session_not_found [] "session1"
    (USSDMessage.from_element "1" "123456" "123456" "1" "27117654321" "909"
      "68" "hello") (by decide) (by rfl)).2

/-- Claim C4: a NEW notification, whatever its `ussdString` payload, yields an
inbound event with empty content, `to_addr` equal to the notification's
`serviceCode` and `from_addr` equal to its normalized `msIsdn`; a session
record keyed by the session id is created storing that service address. -/
theorem claim_C4_new_session_discards_content (store : SessionStore)
    (session_id : String) (m : USSDMessage) (hnew : m.msgType = "0") :
    handle_raw_inbound_message store session_id m =
      Except.ok (create_session store session_id m.serviceCode,
        { content := none
          to_addr := m.serviceCode
          from_addr := m.msisdn
          session_event := SessionEvent.sessionNew }) ∧
    getField (load_session (create_session store session_id m.serviceCode)
        session_id) "ussd_code" = some m.serviceCode ∧
    (∀ msgType senderCB receiveCB ussdOpType msIsdn serviceCode codeScheme
        ussdString : String,
      (USSDMessage.from_element msgType senderCB receiveCB ussdOpType msIsdn
          serviceCode codeScheme ussdString).msisdn =
        normalize_address msIsdn) := by
  refine ⟨?_, ?_, fun _ _ _ _ _ _ _ _ => rfl⟩
  · simp [handle_raw_inbound_message, determine_session_event, hnew]
  · simp [getField, load_session, create_session]

/-- Witness for C4: the spec's end-to-end NEW scenario (`msgType=0`,
`ussdString=*909*100#`, `serviceCode=909`) produces a content-less event
addressed from the normalized subscriber address, and a stored session. -/
theorem claim_C4_witness :
    handle_raw_inbound_message [] "session1"
        (USSDMessage.from_element "0" "123456" "123456" "1" "27117654321"
          "909" "68" "*909*100#") =
      Except.ok (create_session [] "session1" "909",
        { content := none
          to_addr := "909"
          from_addr := "+27117654321"
          session_event := SessionEvent.sessionNew }) :=
  (claim_C4_new_session_discards_content [] "session1"
    (USSDMessage.from_element "0" "123456" "123456" "1" "27117654321" "909"
      "68" "*909*100#") rfl).1

/-- Counterexample to claim C5 as stated: an unparsable POST body is rejected
with HTTP 500 before dispatch, but the fault envelope carries the fixed
server-class code `soapenv:Server` assigned by `_handleError` to non-SoapFault
failures — not a code denoting a client-class request defect. -/
theorem claim_C5_counterexample :
    (render_POST (RequestContent.invalidXml "sup") (Except.ok ())).status =
      500 ∧
    (render_POST (RequestContent.invalidXml "sup") (Except.ok ())).body =
      soap_envelope (soap_fault "soapenv:Server" "sup") none ∧
    strEndsWith "soapenv:Server" "Client" = false ∧
    strEndsWith "soapenv:Server" "Server" = true :=
  ⟨rfl, rfl, by decide, by decide⟩

/-- Claim C5 as amended: a POST whose body is not well-formed XML is rejected
before protocol dispatch — the response is the same whatever the notification
callback would do — with an HTTP 500 failure response whose fault code is the
server-class `soapenv:Server` (not a client-class code). -/
theorem claim_C5_malformed_xml_rejected (raw : String)
    (cb : Except ProcessingError Unit) :
    render_POST (RequestContent.invalidXml raw) cb =
      ⟨500, soap_envelope (soap_fault "soapenv:Server" raw) none⟩ :=
  rfl

/-- Claim C6: dispatch selects the handler by the first body child's local
name; an operation with no registered handler yields a server-class fault
naming the unknown operation, and a body with no actionable child element
yields a client-class fault. -/
theorem claim_C6_dispatch_by_localname (bt t : QName) (cs rest : List Xml)
    (children : List Xml) (cb : Except ProcessingError Unit) :
    (t.localname ≠ "notifyUssdReception" →
      process (Xml.element bt (Xml.element t cs :: rest)) cb =
        Except.error (ProcessingError.soapFault "soapenv:Server"
          ("No handler for " ++ t.localname))) ∧
    (children.filter Xml.isElement = [] →
      process (Xml.element bt children) cb =
        Except.error (ProcessingError.soapFault "soapenv:Client"
          "No actionable items")) := by
  constructor
  · intro h
    simp [process, Xml.getchildren, Xml.isElement, Xml.localnameOf,
      process_unknown, h]
  · intro h
    simp [process, Xml.getchildren, h]

/-- Witness for C6 at the package's own test inputs: an unknown `WhatIsThis`
operation and an empty body. -/
theorem claim_C6_witness :
    process (Xml.element bodyTag [Xml.element ⟨"", "WhatIsThis"⟩ []])
        (Except.ok ()) =
      Except.error (ProcessingError.soapFault "soapenv:Server"
        "No handler for WhatIsThis") ∧
    process (Xml.element bodyTag []) (Except.ok ()) =
      Except.error (ProcessingError.soapFault "soapenv:Client"
        "No actionable items") :=
  ⟨(claim_C6_dispatch_by_localname bodyTag ⟨"", "WhatIsThis"⟩ [] [] []
      (Except.ok ())).1 (by decide),
   (claim_C6_dispatch_by_localname bodyTag ⟨"", "WhatIsThis"⟩ [] [] []
      (Except.ok ())).2 rfl⟩

/-- Counterexample to claim C7 as stated: for one and the same dispatched
notification envelope the response is 200 when the internal emission callback
chain succeeds but 500 with a fault body when it fails — the carrier response
*does* depend on the outcome of the downstream event emission. -/
theorem claim_C7_counterexample :
    (render_POST (RequestContent.xmlDoc (soap_envelope
        (ussd_reception_element "0" "123456" "1" "*909*100#" "27117654321"
          "909") none)) (Except.ok ())).status = 200 ∧
    (render_POST (RequestContent.xmlDoc (soap_envelope
        (ussd_reception_element "0" "123456" "1" "*909*100#" "27117654321"
          "909") none))
      (Except.error (ProcessingError.handlerFailure "boom"))).status = 500 ∧
    (render_POST (RequestContent.xmlDoc (soap_envelope
        (ussd_reception_element "0" "123456" "1" "*909*100#" "27117654321"
          "909") none))
      (Except.error (ProcessingError.handlerFailure "boom"))).body =
      soap_envelope (soap_fault "soapenv:Server" "boom") none :=
  ⟨rfl, rfl, rfl⟩

/-- Claim C7 as amended: a dispatched notification is answered with status 200
and the fixed `result=0` success body exactly when the emission callback chain
completes successfully; the response callback is chained after the emission
deferred, so an emission failure yields a 500 fault response instead — the
carrier response depends on the emission outcome. -/
theorem claim_C7_response_tracks_emission (msgType senderCB ussdOpType
    ussdString msIsdn serviceCode : String) (e : ProcessingError) :
    render_POST (RequestContent.xmlDoc (soap_envelope
        (ussd_reception_element msgType senderCB ussdOpType ussdString msIsdn
          serviceCode) none)) (Except.ok ()) =
      ⟨200, soap_envelope notifyUssdReceptionResponse none⟩ ∧
    render_POST (RequestContent.xmlDoc (soap_envelope
        (ussd_reception_element msgType senderCB ussdOpType ussdString msIsdn
          serviceCode) none)) (Except.error e) =
      ⟨(handleError e).1, soap_envelope (handleError e).2 none⟩ ∧
    (handleError e).1 = 500 := by
  refine ⟨rfl, rfl, ?_⟩
  cases e <;> rfl

/-- Claim C8: every header built for a call at time `t` carries the provider
id, the provisioned service id, the fixed-width (14-character) numeric
timestamp string for `t`, and a credential hashed over the concatenation of
provider id, password and that exact timestamp — recomputed from this call's
own time; the optional `OA` and `linkid` fields appear exactly when their
arguments are supplied and are omitted entirely when absent. -/
theorem claim_C8_header_fields (spId pw serviceId : String) (t : DateTime)
    (oa lid : Option String) :
    ("spId", spId) ∈ _make_header spId pw serviceId t oa lid ∧
    ("spPassword", make_password spId pw (format_timestamp t)) ∈
      _make_header spId pw serviceId t oa lid ∧
    ("serviceId", serviceId) ∈ _make_header spId pw serviceId t oa lid ∧
    ("timeStamp", format_timestamp t) ∈
      _make_header spId pw serviceId t oa lid ∧
    (format_timestamp t).length = 14 ∧
    (∀ a, oa = some a → ("OA", a) ∈ _make_header spId pw serviceId t oa lid) ∧
    (oa = none → ∀ v, ("OA", v) ∉ _make_header spId pw serviceId t oa lid) ∧
    (∀ l, lid = some l →
      ("linkid", l) ∈ _make_header spId pw serviceId t oa lid) ∧
    (lid = none → ∀ v,
      ("linkid", v) ∉ _make_header spId pw serviceId t oa lid) := by
  refine ⟨?_, ?_, ?_, ?_, rfl, ?_, ?_, ?_, ?_⟩
  · cases oa <;> cases lid <;> simp [_make_header]
  · cases oa <;> cases lid <;> simp [_make_header]
  · cases oa <;> cases lid <;> simp [_make_header]
  · cases oa <;> cases lid <;> simp [_make_header]
  · rintro a rfl
    cases lid <;> simp [_make_header]
  · rintro rfl v
    cases lid <;> simp [_make_header]
  · rintro l rfl
    cases oa <;> simp [_make_header]
  · rintro rfl v
    cases oa <;> simp [_make_header]

/-- Witness for C8 at a fixed clock instant with a supplied subscription
address and no link id. -/
theorem claim_C8_witness :
    ("spPassword",
        make_password "sp" "pw" (format_timestamp ⟨2013, 6, 12, 13, 15, 0⟩)) ∈
      _make_header "sp" "pw" "svc" ⟨2013, 6, 12, 13, 15, 0⟩ (some "addr")
        none ∧
    ("OA", "addr") ∈
      _make_header "sp" "pw" "svc" ⟨2013, 6, 12, 13, 15, 0⟩ (some "addr")
        none ∧
    (format_timestamp ⟨2013, 6, 12, 13, 15, 0⟩).length = 14 :=
  ⟨(claim_C8_header_fields "sp" "pw" "svc" ⟨2013, 6, 12, 13, 15, 0⟩
      (some "addr") none).2.1,
   (claim_C8_header_fields "sp" "pw" "svc" ⟨2013, 6, 12, 13, 15, 0⟩
      (some "addr") none).2.2.2.2.2.1 "addr" rfl,
   (claim_C8_header_fields "sp" "pw" "svc" ⟨2013, 6, 12, 13, 15, 0⟩
      (some "addr") none).2.2.2.2.1⟩

/-- Claim C9: unwrapping a wrapped envelope returns the original operation
body and preserves the supplied header, including when no header was
supplied. -/
theorem claim_C9_roundtrip (body : Xml) (header : Option Xml) :
    unwrap (soap_envelope body header) = Except.ok (body, header) := by
  cases header <;> rfl

end ParlayXUSSD
